import Mathlib

/-!
Verification of the atlas-gonnect authentication core against its
natural-language specification.

The development shallowly embeds the Go sources:
- `src/unnamed/part_000` (package middleware: token extraction, the
  steady-state `AuthenticationMiddleware.ServeHTTP`, `ValidateQshFromRequest`,
  and the session-token issuer closure `createSessionToken`);
- `src/middleware/verify-installation.go` (`fetchKeyWithKeyId`,
  `decodeAsymmetric`, `decodeAsymmetricToken`, `signedInstallMiddleware`,
  `VerifyInstallationMiddleware.ServeHTTP`);
- `src/routes/routes.go` (`RegisterRoutes`).

External collaborators (the `golang-jwt/jwt` v3 library, the HTTP stack,
the tenant store, the `atlas-jwt` QSH hash) are abstracted as explicit
function parameters or data, with their documented v3 contracts modelled
where the middleware relies on them (parse / verify / claim validation).
-/

namespace Gonnect

/-- A Go `interface\x7b\x7d` value as it appears in a `jwt.MapClaims` or a
JSON-decoded `map[string]interface\x7b\x7d`: the nil interface (absent key),
a string, a number, or a boolean. -/
inductive GoVal where
  | nil
  | str (s : String)
  | num (n : Int)
  | boolv (b : Bool)
deriving DecidableEq, Repr

/-- Models `jwt.MapClaims` / a decoded JSON object: an association list from
claim name to Go value. -/
abbrev Claims := List (String × GoVal)

/-- Go map lookup with the comma-ok form: `v, ok := m[k]`.
`none` means the key is absent. -/
def claimsLookup (c : Claims) (k : String) : Option GoVal :=
  match c.find? (fun p => p.1 == k) with
  | some p => some p.2
  | none => none

/-- Go map lookup `m[k]` without the comma-ok form: an absent key yields
the nil interface value. -/
def claimsGet (c : Claims) (k : String) : GoVal :=
  (claimsLookup c k).getD .nil

/-- Go comparison `v == s` between an `interface\x7b\x7d` value and a string:
true only when the dynamic type is `string` and the contents agree.
In particular the nil interface is never equal to `""`. -/
def GoVal.eqStr (v : GoVal) (s : String) : Bool :=
  match v with
  | .str t => t == s
  | _ => false

/-- Go type assertion `v.(string)` in the comma-ok form: `none` when the
dynamic type is not `string` (including the nil interface). The bare form
`v.(string)` panics exactly when this returns `none`. -/
def GoVal.asString (v : GoVal) : Option String :=
  match v with
  | .str s => some s
  | _ => none

/-- A structurally parsed JWT, the result of a successful `jwt.Parse`:
the declared algorithm header, the optional `kid` header entry, the claim
set, and the key material the signature actually verifies under
(`hmacKey` for an HMAC-SHA256 signature, `rsaPem` for an RSA-SHA256
signature against a PEM public key). -/
structure Token where
  alg : String
  kid : Option GoVal
  claims : Claims
  hmacKey : Option String
  rsaPem : Option String
deriving DecidableEq, Repr

/-- The parts of an inbound `*http.Request` the middlewares consume:
the `jwt` query parameter (`""` when absent), whether the request has a
body (`r.Body != http.NoBody`), the `jwt` form-body field as returned by
`r.PostFormValue` (`""` when absent), the `Authorization` header value
(`""` when absent), and the JSON-decoded body object used by the
installation middleware. -/
structure Request where
  queryJwt : String
  hasBody : Bool
  postFormJwt : String
  authHeader : String
  bodyJson : Claims
deriving DecidableEq, Repr

/-- Models `jwt.StandardClaims` as populated by `createSessionToken`: only the
issuer, audience and subject fields are ever set (the rest stay at their
zero values). -/
structure StandardClaims where
  issuer : String
  audience : String
  subject : String
deriving DecidableEq, Repr

/-- One row of the tenant store (`store.Tenant`), with `Context.String()`
flattened to the string the middleware reads. -/
structure Tenant where
  clientKey : String
  baseURL : String
  sharedSecret : String
  context : String
  addonInstalled : Bool
deriving DecidableEq, Repr

/-- Models `Store.Get` keyed by clientKey: `none` models a gorm error (record
not found or database failure), exactly the `err != nil` branch. -/
abbrev StoreDB := String → Option Tenant

/-- The external collaborators the middlewares call through:
`parseJwt` is the structural outcome of `jwt.Parse` on a token string
(`none` models the nil-token result for a malformed segment count);
`qshHash` is `atlasjwt.CreateQueryStringHash(r, contextPath, baseUrl)`,
a pure function of the request; `signHS256` is
`jwt.NewWithClaims(HS256, claims).SignedString([]byte(secret))`, which
never fails for a byte-slice key. -/
structure Env where
  parseJwt : String → Option Token
  qshHash : Request → Bool → String → String
  signHS256 : StandardClaims → String → String

/-- The `*gonnect.Addon` fields the middlewares consume: `*addon.Key`,
`addon.Config.BaseUrl`, `addon.Config.SignedInstall`, and the tenant
store. -/
structure Addon where
  key : String
  baseUrl : String
  signedInstall : Bool
  store : StoreDB

/-! ## Token extraction (src/unnamed/part_000 lines 40-76) -/

/-- Models Go `strings.HasPrefix(s, pre)`. -/
def goHasPrefix (s pre : String) : Bool :=
  pre.data.isPrefixOf s.data

/-- Models Go `strings.TrimPrefix(s, pre)`: drops the leading `pre` when
present, otherwise returns `s` unchanged. -/
def goTrimPre (s pre : String) : String :=
  if goHasPrefix s pre then String.mk (s.data.drop pre.data.length) else s

/-- Models `ExtractJwt`: reads the `jwt` query parameter, the `jwt` form-body
field, and the `Authorization: JWT <token>` header, in the order and with
the early exits of the source. `none` is the `("", false)` return. -/
def ExtractJwt (r : Request) : Option String :=
  let tokenInQuery := r.queryJwt
  if tokenInQuery == "" && !r.hasBody then
    none
  else
    let tokenInBody := r.postFormJwt
    if tokenInQuery != "" && tokenInBody != "" then
      none
    else
      let token0 := if tokenInBody != "" then tokenInBody else tokenInQuery
      let token1 :=
        if r.authHeader != "" && goHasPrefix r.authHeader "JWT " then
          (if token0 != "" then token0 else goTrimPre r.authHeader "JWT ")
        else token0
      if token1 == "" then none else some token1

/-! ## golang-jwt v3 claim validation (library contract used at lines 132-166) -/

/-- Models `MapClaims.VerifyExpiresAt(now, false)`: passes when `exp` is absent
or not numeric; otherwise requires `now <= exp`. -/
def verifyExpiresAt (c : Claims) (now : Int) : Bool :=
  match claimsGet c "exp" with
  | .num e => decide (now ≤ e)
  | _ => true

/-- Models `MapClaims.VerifyIssuedAt(now, false)`: passes when `iat` is absent
or not numeric; otherwise requires `now >= iat`. -/
def verifyIssuedAt (c : Claims) (now : Int) : Bool :=
  match claimsGet c "iat" with
  | .num i => decide (i ≤ now)
  | _ => true

/-- Models `MapClaims.VerifyNotBefore(now, false)`: passes when `nbf` is absent
or not numeric; otherwise requires `now >= nbf`. -/
def verifyNotBefore (c : Claims) (now : Int) : Bool :=
  match claimsGet c "nbf" with
  | .num n => decide (n ≤ now)
  | _ => true

/-- Models `MapClaims.Valid()` at Unix time `now`. -/
def claimsValid (c : Claims) (now : Int) : Bool :=
  verifyExpiresAt c now && verifyIssuedAt c now && verifyNotBefore c now

/-- Models `MapClaims.VerifyAudience(cmp, req)`: the `aud` claim read with a
comma-ok string assertion, empty meaning absent. -/
def verifyAudience (c : Claims) (cmp : String) (req : Bool) : Bool :=
  let aud := ((claimsGet c "aud").asString).getD ""
  if aud == "" then !req else aud == cmp

/-! ## QSH validation (src/unnamed/part_000 lines 241-253) -/

/-- Models `ValidateQshFromRequest`: when qsh enforcement applies and the `qsh`
claim differs from `""` (an interface-vs-string comparison), the claim is
compared against the canonical hash computed without and then with the
context path stripped; any other case returns true. -/
def ValidateQshFromRequest (qshHash : Request → Bool → String → String)
    (claims : Claims) (r : Request) (addon : Addon) (skipQsh : Bool) : Bool :=
  if !skipQsh && !((claimsGet claims "qsh").eqStr "") then
    let expectedHash := qshHash r false addon.baseUrl
    if !((claimsGet claims "qsh").eqStr expectedHash) then
      let expectedHash2 := qshHash r true addon.baseUrl
      if !((claimsGet claims "qsh").eqStr expectedHash2) then
        false
      else true
    else true
  else true

/-! ## Steady-state authentication (src/unnamed/part_000 lines 78-239) -/

/-- The observable effects of one `AuthenticationMiddleware.ServeHTTP` run:
the `(status, message)` pairs written through `util.SendError` in order,
the `X-acpt` response header if set, the `verifiedParams` map when the
wrapped handler chain is invoked (through `NewRequestMiddleware`), and
whether the run ended in a runtime panic. -/
structure Response where
  sends : List (Nat × String)
  xacpt : Option String
  forwarded : Option (List (String × String))
  panicked : Bool
deriving DecidableEq, Repr

/-- A terminated run that wrote the earlier `sends0` (if any) followed by
one `util.SendError(w, r, addon, code, msg)` and returned. -/
def errResp (sends0 : List (Nat × String)) (code : Nat) (msg : String) : Response :=
  { sends := sends0 ++ [(code, msg)], xacpt := none, forwarded := none, panicked := false }

/-- Lines 114-117: the missing-qsh branch. `unverifiedClaims["qsh"] == ""`
is an interface-vs-string comparison (false for an absent claim), and the
branch calls `util.SendError` WITHOUT a `return`, so it contributes a
write and execution continues. -/
def qshWarn (unverifiedClaims : Claims) (skipQsh : Bool) : List (Nat × String) :=
  if (claimsGet unverifiedClaims "qsh").eqStr "" && !skipQsh then
    [(401, "JWT claim did not contain the query string hash (qsh) claim")]
  else []

/-- The algorithm switch of the verification keyfunc (lines 134-151):
`"none"` and unknown algorithms error; `"HS256"` and `"RS256"` fall
through to `return []byte(secret)` (the library pairs those headers with
the HMAC resp. RSA signing method, so the type checks always pass). -/
def authKeyfuncOk (t : Token) : Bool :=
  match t.alg with
  | "none" => false
  | "HS256" => true
  | "RS256" => true
  | _ => false

/-- Signature verification against the `[]byte(secret)` key returned by
the keyfunc: HS256 verifies exactly when the token was HMAC-signed with
that secret; RS256 always fails because `SigningMethodRSA.Verify`
rejects a byte-slice key as an invalid key type. -/
def authSigOk (t : Token) (secret : String) : Bool :=
  match t.alg with
  | "HS256" => t.hmacKey == some secret
  | _ => false

/-- The error contract of `jwt.Parse(token, keyfunc)` in golang-jwt v3:
the returned error is nil exactly when the keyfunc succeeded, the claims
are valid at `now`, and the signature verified. -/
def authParseOk (t : Token) (secret : String) (now : Int) : Bool :=
  authKeyfuncOk t && claimsValid t.claims now && authSigOk t secret

/-- Lines 222-225: `accountID := ""`, then a bare `.(string)` assertion
when `oldVerClaims["sub"]` is non-nil; a present non-string `sub` claim
panics (`none`). -/
def accountIdOf : GoVal → Option String
  | .nil => some ""
  | .str s => some s
  | _ => none

/-- Models `AuthenticationMiddleware.ServeHTTP` (lines 78-239) as a function of
the request, the addon, the per-route `skipQsh` flag and the current Unix
time. The verified parse at line 132 re-parses the same token string, so
it reuses the structural parse result; the `claims.Valid()` re-check at
line 162 and the `MapClaims` cast at line 168 are kept even though the
first cannot fail after a nil parse error and the second never fails for
the default parser. -/
def authServeHTTP (env : Env) (addon : Addon) (skipQsh : Bool) (r : Request)
    (now : Int) : Response :=
  match ExtractJwt r with
  | none => errResp [] 401 "Could not find auth data on request"
  | some token =>
  match env.parseJwt token with
  | none => errResp [] 401 "JWT claim did not contain the issuer (iss) claim"
  | some tok =>
  if (claimsGet tok.claims "iss").eqStr "" then
    errResp [] 401 "JWT claim did not contain the issuer (iss) claim"
  else
  match (claimsGet tok.claims "iss").asString with
  | none => { sends := [], xacpt := none, forwarded := none, panicked := true }
  | some clientKey =>
  let sends0 := qshWarn tok.claims skipQsh
  match addon.store clientKey with
  | none => errResp sends0 500 "Could not lookup stored client data for clientKey"
  | some tenant =>
  if tenant.sharedSecret == "" then
    errResp sends0 401 "Could not find JQT sharedSecret in tenant clientKey"
  else
  if !(authParseOk tok tenant.sharedSecret now) then
    errResp sends0 500 "Could not verify JWT Token"
  else
  if !(claimsValid tok.claims now) then
    errResp sends0 500 "Could not find verify JWT Claims; Auth request has expired"
  else
  if !(ValidateQshFromRequest env.qshHash tok.claims r addon skipQsh) then
    errResp sends0 401 "Auth failure: Query hash mismatch"
  else
  let subject := ((claimsGet tok.claims "subject").asString).getD ""
  let signedToken := env.signHS256
    { issuer := addon.key, audience := clientKey, subject := subject }
    tenant.sharedSecret
  match addon.store clientKey with
  | none =>
    { sends := sends0 ++ [(500, "Could not create new access token")],
      xacpt := some signedToken, forwarded := none, panicked := false }
  | some tenant2 =>
  match accountIdOf (claimsGet tok.claims "sub") with
  | none => { sends := sends0, xacpt := some signedToken, forwarded := none, panicked := true }
  | some accountID =>
    { sends := sends0, xacpt := some signedToken,
      forwarded := some [("clientKey", clientKey), ("hostBaseUrl", tenant2.baseURL),
        ("token", signedToken), ("userAccountId", accountID),
        ("tenantContext", tenant2.context)],
      panicked := false }

/-! ## Key resolver (src/middleware/verify-installation.go lines 40-69) -/

/-- The outcome of `http.Get` on the key-distribution URL: a transport
error (`err != nil`) or a response with a status code and body. -/
inductive FetchResult where
  | transportError (msg : String)
  | response (status : Nat) (body : String)
deriving DecidableEq, Repr

/-- The fallback cache (`keyFallbackCache`) restricted to its entries
that are fresh at call time; go-cache `Get` never returns expired
entries, and expired entries behave exactly like absent ones. -/
abbrev KeyCache := List (String × String)

/-- go-cache `Get`. -/
def cacheGet (c : KeyCache) (k : String) : Option String :=
  match c.find? (fun p => p.1 == k) with
  | some p => some p.2
  | none => none

/-- go-cache `Add` with the default expiration: inserts only when no
fresh entry exists for the key. -/
def cacheAdd (c : KeyCache) (k : String) (v : String) : KeyCache :=
  match cacheGet c k with
  | some _ => c
  | none => (k, v) :: c

/-- Models `fetchKeyWithKeyId`: a live fetch against `live` (the network),
returning the body and populating the cache on a 200 status; on any
other status, a fallback-cache lookup; on a transport error, the error
is returned directly without consulting the cache. `url.Parse` of the
constant CDN URL cannot fail and is elided. -/
def fetchKeyWithKeyId (live : String → FetchResult) (cache : KeyCache)
    (keyId : String) : Except String String × KeyCache :=
  match live keyId with
  | .transportError msg => (.error msg, cache)
  | .response status body =>
    if status == 200 then
      (.ok body, cacheAdd cache keyId body)
    else
      match cacheGet cache keyId with
      | some fallbackKey => (.ok fallbackKey, cache)
      | none => (.error "Could not retrieve public Key from CDN or fallbackCache", cache)

/-! ## Asymmetric verification (src/middleware/verify-installation.go lines 30-171) -/

/-- A Go computation that can succeed, return an error, or panic. -/
inductive GoResult (α : Type) where
  | ok (a : α)
  | err (msg : String)
  | panicked
deriving DecidableEq, Repr

/-- Models `isJwtAsymmetric` (lines 30-38): no token extracted means false; a
nil structural parse makes the `token.Method` dereference panic
(`none`); otherwise the method comparison reduces to the algorithm
header being `"RS256"`. -/
def isJwtAsymmetric (env : Env) (r : Request) : Option Bool :=
  match ExtractJwt r with
  | none => some false
  | some tokenStr =>
    match env.parseJwt tokenStr with
    | none => none
    | some t => some (t.alg == "RS256")

/-- Models `decodeAsymmetric` (lines 71-91): reject a non-RS256 algorithm
header; with `noVerify` return the unverified claims; otherwise re-parse
with the PEM public key, which succeeds exactly when the signature
verifies under that key and the claims are valid at `now` (golang-jwt v3
validates claims inside `Parse`). -/
def decodeAsymmetric (t : Token) (publicKey : String) (noVerify : Bool)
    (now : Int) : Except String Claims :=
  if t.alg != "RS256" then
    .error ("Unexpected signing method: " ++ t.alg)
  else if noVerify then
    .ok t.claims
  else if t.rsaPem == some publicKey && claimsValid t.claims now then
    .ok t.claims
  else
    .error "rsa token verification failed"

/-- Models `decodeAsymmetricToken` (lines 93-111): a nil structural parse makes
the `token.Header` access panic; then the `kid` header is read with
comma-ok lookups and a comma-ok string assertion; then the key resolver
runs and `decodeAsymmetric` finishes. -/
def decodeAsymmetricToken (env : Env) (live : String → FetchResult)
    (cache : KeyCache) (tokenStr : String) (noVerify : Bool) (now : Int) :
    GoResult Claims × KeyCache :=
  match env.parseJwt tokenStr with
  | none => (.panicked, cache)
  | some t =>
    match t.kid with
    | none => (.err "keyId is missing", cache)
    | some kidVal =>
      match kidVal.asString with
      | none => (.err "keyId is missing", cache)
      | some keyId =>
        if keyId == "" then (.err "keyId is missing", cache)
        else
          match fetchKeyWithKeyId live cache keyId with
          | (.error e, cache2) => (.err e, cache2)
          | (.ok publicKey, cache2) =>
            match decodeAsymmetric t publicKey noVerify now with
            | .error e => (.err e, cache2)
            | .ok c => (.ok c, cache2)

/-- Models `signedInstallMiddleware.verifyAsymmetricJwtAndGetClaims`
(lines 131-171): extract, unverified decode, issuer / audience / qsh
checks on the unverified claims, verified decode, claim validity, QSH
validation with qsh enforcement on; returns the clientKey taken from the
unverified issuer. -/
def verifyAsymmetricJwtAndGetClaims (env : Env) (addon : Addon) (r : Request)
    (live : String → FetchResult) (cache : KeyCache) (now : Int) :
    GoResult String × KeyCache :=
  match ExtractJwt r with
  | none => (.err "Could not find authentication data on request", cache)
  | some tokenStr =>
  match decodeAsymmetricToken env live cache tokenStr true now with
  | (.panicked, c1) => (.panicked, c1)
  | (.err e, c1) => (.err e, c1)
  | (.ok unverifiedClaims, c1) =>
  if (claimsGet unverifiedClaims "iss").eqStr "" then
    (.err "JWT claim did not contain the issuer (iss) claim", c1)
  else
  match (claimsGet unverifiedClaims "iss").asString with
  | none => (.panicked, c1)
  | some clientKey =>
  if !(verifyAudience unverifiedClaims addon.baseUrl true) then
    (.err "JWT claim did not contain the correct audience (aud) claim", c1)
  else
  if (claimsGet unverifiedClaims "qsh").eqStr "" then
    (.err "JWT claim did not contain the query string hash (qsh) claim", c1)
  else
  match decodeAsymmetricToken env live c1 tokenStr false now with
  | (.panicked, c2) => (.panicked, c2)
  | (.err e, c2) => (.err e, c2)
  | (.ok verifiedClaims, c2) =>
  if !(claimsValid verifiedClaims now) then
    (.err "Authentication request has expired.", c2)
  else
  if !(ValidateQshFromRequest env.qshHash verifiedClaims r addon false) then
    (.err "Auth failure: Query hash mismatch", c2)
  else
    (.ok clientKey, c2)

/-! ## Installation handshake (src/middleware/verify-installation.go lines 178-248) -/

/-- The observable outcome of one `VerifyInstallationMiddleware.ServeHTTP`
run: an error response, a silent return with neither a response nor a
forward (the missing-clientKey branch), a forward to the wrapped handler
(recording whether the `x-unexpected-symmetric-hook` header was added),
or a panic. -/
inductive InstallOutcome where
  | sendError (status : Nat) (msg : String)
  | dropped
  | forward (unexpectedSymmetricHook : Bool)
  | panicked
deriving DecidableEq, Repr

/-- Models `VerifyInstallationMiddleware.ServeHTTP` (lines 178-248): body
presence check, JSON peek for `baseUrl` and `clientKey` (comma-ok map
lookups; the tee keeps the body readable downstream), then either the
signed-install sub-path (inner handler comparing the context clientKey
string against the body value with Go interface equality) or an
unconditional forward. -/
def verifyInstallationServeHTTP (env : Env) (addon : Addon) (r : Request)
    (live : String → FetchResult) (cache : KeyCache) (now : Int) :
    InstallOutcome × KeyCache :=
  if !r.hasBody then (.sendError 401 "No registration info provided", cache)
  else
  match claimsLookup r.bodyJson "baseUrl" with
  | none => (.sendError 401 "No baseUrl provided for registration info", cache)
  | some _ =>
  match claimsLookup r.bodyJson "clientKey" with
  | none => (.dropped, cache)
  | some clientKeyVal =>
  if addon.signedInstall then
    match isJwtAsymmetric env r with
    | none => (.panicked, cache)
    | some true =>
      match verifyAsymmetricJwtAndGetClaims env addon r live cache now with
      | (.panicked, c2) => (.panicked, c2)
      | (.err e, c2) => (.sendError 401 e, c2)
      | (.ok ck, c2) =>
        if clientKeyVal.eqStr ck then (.forward false, c2)
        else (.sendError 401 "clientKey in install payload did not match authenticated client", c2)
    | some false => (.forward true, cache)
  else (.forward false, cache)

/-! ## Route registration (src/routes/routes.go lines 79-96) -/

/-- The handler chain bound to one route. -/
inductive Handler where
  | atlassianConnect
  | installed
  | uninstalled
  | custom (tag : String)
  | verifyInstallation (next : Handler)
  | authentication (skipQsh : Bool) (next : Handler)
deriving DecidableEq, Repr

/-- Whether a handler chain is wrapped by the installation-handshake
gate (`VerifyInstallationMiddleware`). -/
def Handler.isVerifyInstallGate : Handler → Bool
  | .verifyInstallation _ => true
  | _ => false

/-- A character of the `strings.Trim` cutset `" \t/"`. -/
def trimBaseChar (c : Char) : Bool :=
  c == ' ' || c == '\t' || c == '/'

/-- Models `strings.Trim(base, " \t/")`. -/
def trimBase (s : String) : String :=
  String.mk (((s.data.dropWhile trimBaseChar).reverse.dropWhile trimBaseChar).reverse)

/-- Lines 80-85: normalize the registration base path. -/
def normBase (base : String) : String :=
  let b := trimBase base
  if b == "" then "/" else "/" ++ b ++ "/"

/-- Models `RegisterRoutes` (lines 79-96) as the list of `(path, handler)`
bindings passed to `mux.Handle`, in registration order. -/
def RegisterRoutes (base : String) (enabled disabled : Option Handler) :
    List (String × Handler) :=
  let b := normBase base
  [(b ++ "atlassian-connect.json", .atlassianConnect),
   (b ++ "installed", .verifyInstallation .installed),
   (b ++ "uninstalled", .authentication false .uninstalled)]
  ++ (match enabled with
      | some e => [(b ++ "enabled", .authentication false e)]
      | none => [])
  ++ (match disabled with
      | some d => [(b ++ "disabled", .authentication false d)]
      | none => [])

/-- The handler a chi mux dispatches for an exact path: the first
binding whose registered pattern equals the path. -/
def findRoute (routes : List (String × Handler)) (p : String) : Option Handler :=
  match routes with
  | [] => none
  | (k, v) :: rest => if k = p then some v else findRoute rest p

/-! ## Concrete fixtures for closed evaluations -/

/-- A concrete injective stand-in for HMAC-SHA256 signing, used to
instantiate `Env.signHS256` in closed runs: it records the three claim
fields and the secret, so distinct claim sets give distinct tokens. -/
def encodeSigned (c : StandardClaims) (secret : String) : String :=
  String.intercalate "|" [c.issuer, c.audience, c.subject, secret]

/-- A concrete canonical-hash function for closed runs: every request
hashes to `"qhash"`. -/
def qshConstC : Request → Bool → String → String := fun _ _ _ => "qhash"

/-- Fixture tenant row. -/
def tenantA : Tenant :=
  { clientKey := "tenantA", baseURL := "https://host.example",
    sharedSecret := "s3cret", context := "ctx", addonInstalled := true }

/-- Fixture store holding exactly `tenantA`. -/
def storeA : StoreDB := fun ck => if ck = "tenantA" then some tenantA else none

/-- Fixture addon with signed installs not required. -/
def addonA : Addon :=
  { key := "addonKey", baseUrl := "https://addon.example",
    signedInstall := false, store := storeA }

/-- Fixture addon with signed installs required. -/
def addonSig : Addon :=
  { key := "addonKey", baseUrl := "https://addon.example",
    signedInstall := true, store := storeA }

/-- Fixture token: valid HS256 signature, issuer present, no qsh claim. -/
def tokNoQsh : Token :=
  { alg := "HS256", kid := none, claims := [("iss", .str "tenantA")],
    hmacKey := some "s3cret", rsaPem := none }

/-- Fixture token: valid HS256 signature, issuer present, qsh claim set
to the empty string. -/
def tokEmptyQsh : Token :=
  { alg := "HS256", kid := none,
    claims := [("iss", .str "tenantA"), ("qsh", .str "")],
    hmacKey := some "s3cret", rsaPem := none }

/-- Fixture token: no iss claim at all. -/
def tokNoIss : Token :=
  { alg := "HS256", kid := none, claims := [("qsh", .str "qhash")],
    hmacKey := some "s3cret", rsaPem := none }

/-- Fixture token: HMAC-signed with a secret other than the tenant
shared secret. -/
def tokBadSig : Token :=
  { alg := "HS256", kid := none,
    claims := [("iss", .str "tenantA"), ("qsh", .str "qhash")],
    hmacKey := some "wrong", rsaPem := none }

/-- Fixture token: correctly signed but expired. -/
def tokExpired : Token :=
  { alg := "HS256", kid := none,
    claims := [("iss", .str "tenantA"), ("qsh", .str "qhash"), ("exp", .num (-100))],
    hmacKey := some "s3cret", rsaPem := none }

/-- Fixture token: fully valid steady-state token carrying a host
account identifier in `sub` and no `subject` claim. -/
def tokGood : Token :=
  { alg := "HS256", kid := none,
    claims := [("iss", .str "tenantA"), ("qsh", .str "qhash"), ("sub", .str "alice")],
    hmacKey := some "s3cret", rsaPem := none }

/-- Fixture token: valid RS256 installation token with kid `k1`, issuer
`tenantB`, audience matching the addon base URL, matching qsh. -/
def tokRsa : Token :=
  { alg := "RS256", kid := some (.str "k1"),
    claims := [("iss", .str "tenantB"), ("aud", .str "https://addon.example"),
      ("qsh", .str "qhash")],
    hmacKey := none, rsaPem := some "PEMKEY" }

/-- Fixture structural JWT parser mapping fixed token strings to the
fixture tokens. -/
def parseJwtC : String → Option Token := fun s =>
  if s = "tokNoQsh" then some tokNoQsh
  else if s = "tokEmptyQsh" then some tokEmptyQsh
  else if s = "tokNoIss" then some tokNoIss
  else if s = "tokBadSig" then some tokBadSig
  else if s = "tokExpired" then some tokExpired
  else if s = "tokGood" then some tokGood
  else if s = "tokRsa" then some tokRsa
  else none

/-- Fixture environment. -/
def envC : Env :=
  { parseJwt := parseJwtC, qshHash := qshConstC, signHS256 := encodeSigned }

/-- A request carrying a token string in the `jwt` query parameter and
nothing else. -/
def reqQ (tok : String) : Request :=
  { queryJwt := tok, hasBody := false, postFormJwt := "", authHeader := "",
    bodyJson := [] }

/-- Fixture installation request: JSON body with `baseUrl` but no
`clientKey`. -/
def reqInstallNoCK : Request :=
  { queryJwt := "", hasBody := true, postFormJwt := "", authHeader := "",
    bodyJson := [("baseUrl", .str "https://host.example")] }

/-- Fixture signed installation request whose body clientKey matches the
token issuer. -/
def reqInstallRsa : Request :=
  { queryJwt := "tokRsa", hasBody := true, postFormJwt := "", authHeader := "",
    bodyJson := [("baseUrl", .str "https://host.example"), ("clientKey", .str "tenantB")] }

/-- Fixture signed installation request whose body clientKey differs
from the token issuer. -/
def reqInstallRsaBad : Request :=
  { queryJwt := "tokRsa", hasBody := true, postFormJwt := "", authHeader := "",
    bodyJson := [("baseUrl", .str "https://host.example"), ("clientKey", .str "other")] }

/-- Fixture live key endpoint that always succeeds with `PEMKEY`. -/
def liveOkC : String → FetchResult := fun _ => .response 200 "PEMKEY"

/-- Fixture live key endpoint that always fails at the transport layer. -/
def liveDownC : String → FetchResult := fun _ => .transportError "dial tcp: connect refused"

/-! ## Claims -/

/-- C2: for every claim set whose qsh entry is the empty string and for
every request, `ValidateQshFromRequest` returns true even when `skipQsh`
is false: the empty-string qsh claim is never compared against the
computed canonical hash. -/
theorem validateQsh_empty_string_qsh_always_true
    (qshHash : Request → Bool → String → String) (claims : Claims)
    (r : Request) (addon : Addon) (skipQsh : Bool)
    (h : claimsGet claims "qsh" = .str "") :
    ValidateQshFromRequest qshHash claims r addon skipQsh = true := by
  unfold ValidateQshFromRequest
  rw [h]
  simp [GoVal.eqStr]

/-- Witness for C2: a concrete claim set with `qsh = ""` passes QSH
validation on a concrete request with `skipQsh = false`. -/
theorem validateQsh_empty_string_qsh_always_true_witness :
    claimsGet [("qsh", GoVal.str "")] "qsh" = .str "" ∧
    ValidateQshFromRequest qshConstC [("qsh", GoVal.str "")] (reqQ "x") addonA false = true :=
  ⟨by decide, validateQsh_empty_string_qsh_always_true qshConstC
    [("qsh", GoVal.str "")] (reqQ "x") addonA false (by decide)⟩

/-- C1 (code bug evaluation): a steady-state request whose JWT carries no
qsh claim, with `skipQsh = false`, is NOT answered with the MissingQsh
message: the `unverifiedClaims["qsh"] == ""` test is false for an absent
claim (nil interface vs `""`), so the middleware proceeds and finally
fails QSH validation with the 401 QshMismatch message instead; moreover,
for a qsh claim equal to the empty string the MissingQsh branch does
fire but lacks a `return`, so the 401 is written and the request still
reaches the wrapped handler. -/
theorem auth_absent_qsh_mismatch_and_empty_qsh_forwards :
    authServeHTTP envC addonA false (reqQ "tokNoQsh") 0 =
      { sends := [(401, "Auth failure: Query hash mismatch")],
        xacpt := none, forwarded := none, panicked := false } ∧
    authServeHTTP envC addonA false (reqQ "tokEmptyQsh") 0 =
      { sends := [(401, "JWT claim did not contain the query string hash (qsh) claim")],
        xacpt := some "addonKey|tenantA||s3cret",
        forwarded := some [("clientKey", "tenantA"), ("hostBaseUrl", "https://host.example"),
          ("token", "addonKey|tenantA||s3cret"), ("userAccountId", ""),
          ("tenantContext", "ctx")],
        panicked := false } := by
  constructor <;> decide

/-- C3 (code bug evaluation): a steady-state request whose JWT claims
contain no `iss` entry at all makes the middleware panic on the bare
type assertion `unverifiedClaims["iss"].(string)` (the guard
`unverifiedClaims["iss"] == ""` is false for the nil interface), instead
of terminating with the 401 MissingIssuer response. -/
theorem auth_missing_iss_panics :
    authServeHTTP envC addonA false (reqQ "tokNoIss") 0 =
      { sends := [], xacpt := none, forwarded := none, panicked := true } := by
  decide

/-- C7 counterexample: an invalid signature (token HMAC-signed with the
wrong secret) and an expired token are both reported with status 500,
not with a 401-class status as the claim states for steps 6 and 7. -/
theorem auth_sig_and_expiry_report_500_cex :
    authServeHTTP envC addonA false (reqQ "tokBadSig") 0 =
      { sends := [(500, "Could not verify JWT Token")],
        xacpt := none, forwarded := none, panicked := false } ∧
    authServeHTTP envC addonA false (reqQ "tokExpired") 0 =
      { sends := [(500, "Could not verify JWT Token")],
        xacpt := none, forwarded := none, panicked := false } := by
  constructor <;> decide

/-- C7 amended: once the issuer has been read from the token, the
failure statuses are: tenant lookup failure (step 4) 500; empty shared
secret (step 5) 401; signature verification failure and expired claims
(steps 6 and 7, both surfacing as a `jwt.Parse` error) 500; QSH mismatch
(step 8) 401. -/
theorem auth_status_classes (env : Env) (addon : Addon) (skipQsh : Bool)
    (r : Request) (now : Int) (token : String) (tok : Token) (ck : String)
    (h1 : ExtractJwt r = some token)
    (h2 : env.parseJwt token = some tok)
    (h3 : claimsGet tok.claims "iss" = .str ck)
    (h4 : ck ≠ "") :
    (addon.store ck = none →
      authServeHTTP env addon skipQsh r now =
        errResp (qshWarn tok.claims skipQsh) 500
          "Could not lookup stored client data for clientKey") ∧
    (∀ tenant : Tenant, addon.store ck = some tenant →
      tenant.sharedSecret = "" →
      authServeHTTP env addon skipQsh r now =
        errResp (qshWarn tok.claims skipQsh) 401
          "Could not find JQT sharedSecret in tenant clientKey") ∧
    (∀ tenant : Tenant, addon.store ck = some tenant →
      tenant.sharedSecret ≠ "" →
      authParseOk tok tenant.sharedSecret now = false →
      authServeHTTP env addon skipQsh r now =
        errResp (qshWarn tok.claims skipQsh) 500 "Could not verify JWT Token") ∧
    (∀ tenant : Tenant, addon.store ck = some tenant →
      tenant.sharedSecret ≠ "" →
      authParseOk tok tenant.sharedSecret now = true →
      ValidateQshFromRequest env.qshHash tok.claims r addon skipQsh = false →
      authServeHTTP env addon skipQsh r now =
        errResp (qshWarn tok.claims skipQsh) 401 "Auth failure: Query hash mismatch") := by
  have hbeq : (ck == "") = false := by
    simpa using h4
  refine ⟨?_, ?_, ?_, ?_⟩
  · intro hs
    simp [authServeHTTP, h1, h2, h3, GoVal.eqStr, GoVal.asString, hbeq, hs]
  · intro tenant hs hsec
    simp [authServeHTTP, h1, h2, h3, GoVal.eqStr, GoVal.asString, hbeq, hs, hsec]
  · intro tenant hs hsec hparse
    have hsecb : (tenant.sharedSecret == "") = false := by simpa using hsec
    simp [authServeHTTP, h1, h2, h3, GoVal.eqStr, GoVal.asString, hbeq, hs, hsecb, hparse]
  · intro tenant hs hsec hparse hqsh
    have hsecb : (tenant.sharedSecret == "") = false := by simpa using hsec
    have hvalid : claimsValid tok.claims now = true := by
      have hp := hparse
      unfold authParseOk at hp
      simp only [Bool.and_eq_true] at hp
      exact hp.1.2
    simp [authServeHTTP, h1, h2, h3, GoVal.eqStr, GoVal.asString, hbeq, hs, hsecb,
      hparse, hvalid, hqsh]

/-- Witness for C7 amended: the invalid-signature branch at the concrete
bad-signature run evaluates to the 500 response. -/
theorem auth_status_classes_witness :
    authServeHTTP envC addonA false (reqQ "tokBadSig") 0 =
      errResp (qshWarn tokBadSig.claims false) 500 "Could not verify JWT Token" :=
  (auth_status_classes envC addonA false (reqQ "tokBadSig") 0 "tokBadSig"
    tokBadSig "tenantA" (by decide) (by decide) (by decide)
    (by decide)).2.2.1 tenantA (by decide) (by decide) (by decide)

/-- C9 counterexample: a fully valid steady-state request whose verified
claims carry the host account identifier `sub = "alice"` (exposed as
`userAccountId` in the forwarded parameters) mints a session token whose
subject is empty: `createSessionToken` reads a claim named `"subject"`,
never the `sub` claim, so the minted token differs from one signed over
subject `"alice"`. The environment signs with the injective encoder
`encodeSigned`. -/
theorem session_token_subject_not_from_sub_cex :
    authServeHTTP envC addonA false (reqQ "tokGood") 0 =
      { sends := [],
        xacpt := some "addonKey|tenantA||s3cret",
        forwarded := some [("clientKey", "tenantA"), ("hostBaseUrl", "https://host.example"),
          ("token", "addonKey|tenantA||s3cret"), ("userAccountId", "alice"),
          ("tenantContext", "ctx")],
        panicked := false } ∧
    encodeSigned
      { issuer := "addonKey", audience := "tenantA", subject := "alice" } "s3cret" =
      "addonKey|tenantA|alice|s3cret" ∧
    ("addonKey|tenantA||s3cret" : String) ≠ "addonKey|tenantA|alice|s3cret" := by
  refine ⟨by decide, by decide, by decide⟩

/-- C9 amended: on every successfully authenticated steady-state request
the minted session token has issuer the addon identity key, audience the
clientKey the tenant was authenticated under, and subject copied from a
verified claim named `"subject"` when present as a string (the standard
`sub` claim is not copied; it is forwarded as `userAccountId` instead);
the token is signed with the tenant sharedSecret via HMAC-SHA256 and
exposed in the `X-acpt` response header and the forwarded `token`
parameter. -/
theorem session_token_mint_amended (env : Env) (addon : Addon) (skipQsh : Bool)
    (r : Request) (now : Int) (token : String) (tok : Token) (ck acc : String)
    (tenant : Tenant)
    (h1 : ExtractJwt r = some token)
    (h2 : env.parseJwt token = some tok)
    (h3 : claimsGet tok.claims "iss" = .str ck)
    (h4 : ck ≠ "")
    (h5 : addon.store ck = some tenant)
    (h6 : tenant.sharedSecret ≠ "")
    (h7 : authParseOk tok tenant.sharedSecret now = true)
    (h8 : ValidateQshFromRequest env.qshHash tok.claims r addon skipQsh = true)
    (h9 : accountIdOf (claimsGet tok.claims "sub") = some acc) :
    authServeHTTP env addon skipQsh r now =
      { sends := qshWarn tok.claims skipQsh,
        xacpt := some (env.signHS256
          { issuer := addon.key, audience := ck,
            subject := ((claimsGet tok.claims "subject").asString).getD "" }
          tenant.sharedSecret),
        forwarded := some [("clientKey", ck), ("hostBaseUrl", tenant.baseURL),
          ("token", env.signHS256
            { issuer := addon.key, audience := ck,
              subject := ((claimsGet tok.claims "subject").asString).getD "" }
            tenant.sharedSecret),
          ("userAccountId", acc), ("tenantContext", tenant.context)],
        panicked := false } := by
  have hbeq : (ck == "") = false := by simpa using h4
  have hsecb : (tenant.sharedSecret == "") = false := by simpa using h6
  have hvalid : claimsValid tok.claims now = true := by
    have hp := h7
    unfold authParseOk at hp
    simp only [Bool.and_eq_true] at hp
    exact hp.1.2
  simp [authServeHTTP, h1, h2, h3, GoVal.eqStr, GoVal.asString, hbeq, h5, hsecb,
    h7, hvalid, h8, h9]

/-- Witness for C9 amended: the concrete good run mints the token signed
over issuer `addonKey`, audience `tenantA`, empty subject, with the
tenant secret, and forwards `userAccountId = "alice"`. -/
theorem session_token_mint_amended_witness :
    authServeHTTP envC addonA false (reqQ "tokGood") 0 =
      { sends := qshWarn tokGood.claims false,
        xacpt := some (envC.signHS256
          { issuer := addonA.key, audience := "tenantA",
            subject := ((claimsGet tokGood.claims "subject").asString).getD "" }
          tenantA.sharedSecret),
        forwarded := some [("clientKey", "tenantA"), ("hostBaseUrl", tenantA.baseURL),
          ("token", envC.signHS256
            { issuer := addonA.key, audience := "tenantA",
              subject := ((claimsGet tokGood.claims "subject").asString).getD "" }
            tenantA.sharedSecret),
          ("userAccountId", "alice"), ("tenantContext", tenantA.context)],
        panicked := false } :=
  session_token_mint_amended envC addonA false (reqQ "tokGood") 0 "tokGood"
    tokGood "tenantA" "alice" tenantA (by decide) (by decide) (by decide)
    (by decide) (by decide) (by decide) (by decide) (by decide) (by decide)

/-- Fixture live key endpoint returning a non-success status. -/
def live503C : String → FetchResult := fun _ => .response 503 "oops"

/-- C4 counterexample: a transport failure of the live fetch returns the
transport error directly and never consults the fallback cache, even
though a fresh entry for the key id is present: the claim that a
transport error falls back to the cached PEM text is false. -/
theorem fetchKey_transport_error_skips_cache_cex :
    cacheGet [("k1", "PEMKEY")] "k1" = some "PEMKEY" ∧
    fetchKeyWithKeyId liveDownC [("k1", "PEMKEY")] "k1" =
      (.error "dial tcp: connect refused", [("k1", "PEMKEY")]) := by
  exact ⟨by decide, rfl⟩

/-- C4 amended: only a non-success HTTP status consults the fallback
cache (returning the fresh cached PEM when present, failing with the
KeyUnavailable message when absent); a transport error fails immediately
with the transport error itself, without consulting the cache. -/
theorem fetchKey_fallback_amended (live : String → FetchResult)
    (cache : KeyCache) (keyId : String) :
    (∀ msg : String, live keyId = .transportError msg →
      fetchKeyWithKeyId live cache keyId = (.error msg, cache)) ∧
    (∀ (st : Nat) (body k : String), live keyId = .response st body → st ≠ 200 →
      cacheGet cache keyId = some k →
      fetchKeyWithKeyId live cache keyId = (.ok k, cache)) ∧
    (∀ (st : Nat) (body : String), live keyId = .response st body → st ≠ 200 →
      cacheGet cache keyId = none →
      fetchKeyWithKeyId live cache keyId =
        (.error "Could not retrieve public Key from CDN or fallbackCache", cache)) := by
  refine ⟨?_, ?_, ?_⟩
  · intro msg hl
    simp [fetchKeyWithKeyId, hl]
  · intro st body k hl hst hc
    have hstb : (st == 200) = false := by simpa using hst
    simp [fetchKeyWithKeyId, hl, hstb, hc]
  · intro st body hl hst hc
    have hstb : (st == 200) = false := by simpa using hst
    simp [fetchKeyWithKeyId, hl, hstb, hc]

/-- Witness for C4 amended: a concrete transport failure with an empty
cache returns the transport error, and a concrete 503 with a fresh cache
entry returns the cached PEM. -/
theorem fetchKey_fallback_amended_witness :
    fetchKeyWithKeyId liveDownC [] "k1" = (.error "dial tcp: connect refused", []) ∧
    fetchKeyWithKeyId live503C [("k1", "PEMKEY")] "k1" = (.ok "PEMKEY", [("k1", "PEMKEY")]) :=
  ⟨(fetchKey_fallback_amended liveDownC [] "k1").1 "dial tcp: connect refused" rfl,
   (fetchKey_fallback_amended live503C [("k1", "PEMKEY")] "k1").2.1 503 "oops" "PEMKEY"
     rfl (by decide) (by decide)⟩

/-- C5 counterexample: an installation request whose JSON body has a
`baseUrl` but no `clientKey` is neither rejected with an error response
nor forwarded to the wrapped handler: the middleware logs and returns,
silently terminating the request, so the claimed unauthenticated
pass-through is false. -/
theorem install_missing_clientKey_not_forwarded_cex :
    verifyInstallationServeHTTP envC addonA reqInstallNoCK liveOkC [] 0 =
      (.dropped, []) ∧
    InstallOutcome.dropped ≠ .forward false ∧
    InstallOutcome.dropped ≠ .forward true := by
  refine ⟨by decide, by decide, by decide⟩

/-- C5 amended: for every installation request whose JSON body contains
`baseUrl` but no `clientKey`, the middleware logs the condition and
terminates the request without writing any response and without invoking
the wrapped handler. -/
theorem install_missing_clientKey_drops (env : Env) (addon : Addon) (r : Request)
    (live : String → FetchResult) (cache : KeyCache) (now : Int) (b : GoVal)
    (h1 : r.hasBody = true)
    (h2 : claimsLookup r.bodyJson "baseUrl" = some b)
    (h3 : claimsLookup r.bodyJson "clientKey" = none) :
    verifyInstallationServeHTTP env addon r live cache now = (.dropped, cache) := by
  simp [verifyInstallationServeHTTP, h1, h2, h3]

/-- Witness for C5 amended: the concrete clientKey-less installation
request is dropped. -/
theorem install_missing_clientKey_drops_witness :
    verifyInstallationServeHTTP envC addonA reqInstallNoCK liveOkC [] 1 =
      (.dropped, []) :=
  install_missing_clientKey_drops envC addonA reqInstallNoCK liveOkC [] 1
    (.str "https://host.example") (by decide) (by decide) (by decide)

/-- C10: with signed installs required and an RS256 inbound token, once
the asymmetric verification sub-path succeeds and yields the verified
issuer `ck`, the inner handler forwards exactly when the body clientKey
value equals `ck` (Go interface equality against the context string) and
otherwise rejects with the 401 ClientKeyMismatch message without
invoking the wrapped handler. -/
theorem signed_install_clientKey_gate (env : Env) (addon : Addon) (r : Request)
    (live : String → FetchResult) (cache c2 : KeyCache) (now : Int)
    (b ckv : GoVal) (ck : String)
    (h0 : addon.signedInstall = true)
    (h1 : r.hasBody = true)
    (h2 : claimsLookup r.bodyJson "baseUrl" = some b)
    (h3 : claimsLookup r.bodyJson "clientKey" = some ckv)
    (h4 : isJwtAsymmetric env r = some true)
    (h5 : verifyAsymmetricJwtAndGetClaims env addon r live cache now = (.ok ck, c2)) :
    (ckv.eqStr ck = true →
      verifyInstallationServeHTTP env addon r live cache now = (.forward false, c2)) ∧
    (ckv.eqStr ck = false →
      verifyInstallationServeHTTP env addon r live cache now =
        (.sendError 401 "clientKey in install payload did not match authenticated client", c2)) := by
  constructor
  · intro heq
    simp [verifyInstallationServeHTTP, h0, h1, h2, h3, h4, h5, heq]
  · intro heq
    simp [verifyInstallationServeHTTP, h0, h1, h2, h3, h4, h5, heq]

/-- Witness for C10: the concrete RS256 installation run with matching
body clientKey forwards, and the one with a differing body clientKey is
rejected with the ClientKeyMismatch message. -/
theorem signed_install_clientKey_gate_witness :
    verifyInstallationServeHTTP envC addonSig reqInstallRsa liveOkC [] 0 =
      (.forward false, [("k1", "PEMKEY")]) ∧
    verifyInstallationServeHTTP envC addonSig reqInstallRsaBad liveOkC [] 0 =
      (.sendError 401 "clientKey in install payload did not match authenticated client",
        [("k1", "PEMKEY")]) :=
  ⟨(signed_install_clientKey_gate envC addonSig reqInstallRsa liveOkC []
      [("k1", "PEMKEY")] 0 (.str "https://host.example") (.str "tenantB") "tenantB"
      (by decide) (by decide) (by decide) (by decide) (by decide) (by decide)).1 (by decide),
   (signed_install_clientKey_gate envC addonSig reqInstallRsaBad liveOkC []
      [("k1", "PEMKEY")] 0 (.str "https://host.example") (.str "other") "tenantB"
      (by decide) (by decide) (by decide) (by decide) (by decide) (by decide)).2 (by decide)⟩

/-- Strings with distinct suffix lengths stay distinct after a common
left append. -/
theorem append_ne_of_length_ne (b x y : String) (h : x.length ≠ y.length) :
    b ++ x ≠ b ++ y := by
  intro he
  apply h
  have hl := congrArg String.length he
  rw [String.length_append, String.length_append] at hl
  omega

/-- C6 counterexample: in the registered route set for the empty base,
the handler bound to the `uninstalled` path is not wrapped by the
installation-handshake gate. -/
theorem uninstalled_not_installation_gate_cex :
    (findRoute (RegisterRoutes "" none none) "/uninstalled").map
      Handler.isVerifyInstallGate = some false := by
  decide

/-- C6 amended: for every registered route set, the `uninstalled` path
is bound to the steady-state Authentication Middleware (with qsh
enforcement on) wrapping the uninstalled handler, while the `installed`
path is the one wrapped by the installation-handshake gate. -/
theorem uninstalled_route_uses_auth_middleware (base : String)
    (enabled disabled : Option Handler) :
    findRoute (RegisterRoutes base enabled disabled) (normBase base ++ "uninstalled") =
      some (.authentication false .uninstalled) ∧
    findRoute (RegisterRoutes base enabled disabled) (normBase base ++ "installed") =
      some (.verifyInstallation .installed) := by
  have n1 : normBase base ++ "atlassian-connect.json" ≠ normBase base ++ "uninstalled" :=
    append_ne_of_length_ne _ _ _ (by decide)
  have n2 : normBase base ++ "installed" ≠ normBase base ++ "uninstalled" :=
    append_ne_of_length_ne _ _ _ (by decide)
  have n3 : normBase base ++ "atlassian-connect.json" ≠ normBase base ++ "installed" :=
    append_ne_of_length_ne _ _ _ (by decide)
  constructor
  · simp [RegisterRoutes, findRoute, n1, n2]
  · simp [RegisterRoutes, findRoute, n3]

/-- Fixture request carrying only an Authorization header and no body. -/
def reqHeaderOnly : Request :=
  { queryJwt := "", hasBody := false, postFormJwt := "", authHeader := "JWT abc",
    bodyJson := [] }

/-- Fixture request carrying an Authorization header and a body with no
jwt field. -/
def reqHeaderBody : Request :=
  { queryJwt := "", hasBody := true, postFormJwt := "", authHeader := "JWT abc",
    bodyJson := [] }

/-- Fixture request with a jwt query parameter and an Authorization
header. -/
def reqQueryHdr : Request :=
  { queryJwt := "tokq", hasBody := false, postFormJwt := "", authHeader := "JWT abc",
    bodyJson := [] }

/-- Fixture request with a jwt form-body field and an Authorization
header. -/
def reqBodyHdr : Request :=
  { queryJwt := "", hasBody := true, postFormJwt := "tokb", authHeader := "JWT abc",
    bodyJson := [] }

/-- C8 counterexample: a request with an Authorization header of the
form `JWT <token>`, no jwt query parameter and no jwt form-body field,
but with no body at all (`r.Body == http.NoBody`), fails extraction:
the early bodyless exit fires before the header is ever consulted, so
the claim that extraction succeeds with the header token is false. -/
theorem extractJwt_header_only_no_body_fails_cex :
    reqHeaderOnly.authHeader = "JWT abc" ∧ ExtractJwt reqHeaderOnly = none := by
  constructor <;> decide

/-- C8 amended: the Authorization header token is returned only when no
query/body token exists AND the request is not bodyless (the bodyless
no-query case exits before the header is read); whenever a query or a
form-body jwt value is present (and the other absent), that value is
returned and the header is ignored. -/
theorem extractJwt_precedence_amended (r : Request) :
    (r.queryJwt = "" → r.postFormJwt = "" → r.hasBody = true →
      goHasPrefix r.authHeader "JWT " = true → goTrimPre r.authHeader "JWT " ≠ "" →
      ExtractJwt r = some (goTrimPre r.authHeader "JWT ")) ∧
    (r.queryJwt ≠ "" → r.postFormJwt = "" → ExtractJwt r = some r.queryJwt) ∧
    (r.postFormJwt ≠ "" → r.queryJwt = "" → r.hasBody = true →
      ExtractJwt r = some r.postFormJwt) := by
  refine ⟨?_, ?_, ?_⟩
  · intro hq hb hbody hsw hd
    have hne : r.authHeader ≠ "" := by
      intro he
      rw [he] at hsw
      exact absurd hsw (by decide)
    simp [ExtractJwt, hq, hb, hbody, hsw, hne, hd]
  · intro hq hb
    simp [ExtractJwt, hq, hb]
  · intro hpf hq hbody
    simp [ExtractJwt, hpf, hq, hbody]

/-- Witness for C8 amended: concrete header-only-with-body, query-only
and form-body-only requests extract the expected tokens. -/
theorem extractJwt_precedence_amended_witness :
    ExtractJwt reqHeaderBody = some (goTrimPre reqHeaderBody.authHeader "JWT ") ∧
    ExtractJwt reqQueryHdr = some reqQueryHdr.queryJwt ∧
    ExtractJwt reqBodyHdr = some reqBodyHdr.postFormJwt :=
  ⟨(extractJwt_precedence_amended reqHeaderBody).1 rfl rfl rfl (by decide) (by decide),
   (extractJwt_precedence_amended reqQueryHdr).2.1 (by decide) rfl,
   (extractJwt_precedence_amended reqBodyHdr).2.2 (by decide) rfl rfl⟩

end Gonnect
